import Mathlib

/-!
Verification development for the google-mcp-server credential lifecycle core
and Tasks service. Pure functions are translated directly from the Go source;
stateful or network-facing code is modelled by passing the remote state or the
provider's behaviour as an explicit argument. Components whose implementation
file is absent from the source tree (auth/oauth.go, auth/account_manager.go)
are modelled from the specification, as marked in their doc comments.
-/

/- ### Tasks data model (google.golang.org/api/tasks/v1, fields used here) -/

/-- A Google Tasks task list, restricted to the fields the handlers read. -/
structure TaskList where
  id : String
  title : String
  updated : String
deriving DecidableEq, Repr

/-- A Google Tasks task, restricted to the mutable fields of UpdateTask. -/
structure GTask where
  title : String
  notes : String
  due : String
  status : String
deriving DecidableEq, Repr

/-- UpdateTaskOptions from tasks client: a nil pointer means do not update. -/
structure UpdateTaskOptions where
  title : Option String
  notes : Option String
  due : Option String
  status : Option String
deriving DecidableEq, Repr

/- ### Tasks client (Client methods; the remote fetch is an explicit argument) -/

/-- Client.ListTaskLists: pages through the remote list, wrapping any fetch
error. The remote response is passed explicitly as `fetch`. -/
def ListTaskLists (fetch : Except String (List TaskList)) :
    Except String (List TaskList) :=
  match fetch with
  | Except.error e => Except.error ("failed to list task lists: " ++ e)
  | Except.ok taskLists => Except.ok taskLists

/-- Client.GetDefaultTaskList: lists the task lists and returns the first,
failing when there are none. -/
def GetDefaultTaskList (fetch : Except String (List TaskList)) :
    Except String TaskList :=
  match ListTaskLists fetch with
  | Except.error e => Except.error e
  | Except.ok taskLists =>
    match taskLists with
    | [] => Except.error "no task lists found"
    | t :: _ => Except.ok t

/-- Handler.resolveTaskListID: maps "default" and "" to the default task
list's Id and passes any other ID through unchanged. -/
def resolveTaskListID (fetch : Except String (List TaskList))
    (taskListID : String) : Except String String :=
  if taskListID = "default" ∨ taskListID = "" then
    match GetDefaultTaskList fetch with
    | Except.error e => Except.error e
    | Except.ok defaultList => Except.ok defaultList.id
  else
    Except.ok taskListID

/-- The field-mutation block of Client.UpdateTask: each option that is
non-nil overwrites the corresponding field of the fetched task. -/
def applyUpdateOptions (task : GTask) (opts : UpdateTaskOptions) : GTask :=
  let task1 := match opts.title with
    | some v => { task with title := v }
    | none => task
  let task2 := match opts.notes with
    | some v => { task1 with notes := v }
    | none => task1
  let task3 := match opts.due with
    | some v => { task2 with due := v }
    | none => task2
  match opts.status with
  | some v => { task3 with status := v }
  | none => task3

/-- Client.UpdateTask: fetches the current task (GetTask), applies the
options, and submits the result to the service update call, which is passed
explicitly as `update`. -/
def UpdateTask (fetch : Except String GTask)
    (update : GTask → Except String GTask) (opts : UpdateTaskOptions) :
    Except String GTask :=
  match fetch with
  | Except.error e => Except.error e
  | Except.ok task => update (applyUpdateOptions task opts)

/- ### MCP server dispatcher (server/mcp.go) -/

/-- A jsonrpc2 error object: numeric code plus message. -/
structure JsonRpcError where
  code : Int
  message : String
deriving DecidableEq, Repr

/-- jsonrpc2.CodeMethodNotFound. -/
def codeMethodNotFound : Int := -32601

/-- jsonrpc2.CodeInvalidParams. -/
def codeInvalidParams : Int := -32602

/-- jsonrpc2.CodeInternalError. -/
def codeInternalError : Int := -32603

/-- The reply sent back to the remote JSON-RPC client. -/
inductive Reply where
  | result (text : String)
  | errorReply (e : JsonRpcError)
deriving DecidableEq, Repr

/-- Observable effect of handling one request: the client-facing reply and
the lines written to the local stderr log. -/
structure HandleEffect where
  reply : Reply
  stderrLines : List String
deriving DecidableEq, Repr

/-- Parse outcome of a tools/call request's params. -/
inductive ToolCallParams where
  | missing
  | malformed
  | parsed (toolName : String) (arguments : String)
deriving DecidableEq, Repr

/-- Parse outcome of a resources/read request's params. -/
inductive ResourceReadParams where
  | missing
  | malformed
  | parsed (uri : String)
deriving DecidableEq, Repr

/-- Handler.handleToolCall: nil/invalid params are rejected with
CodeInvalidParams, an unknown tool with CodeMethodNotFound; when the service
handler errors, the full error is logged to stderr and the client receives
only the fixed message "internal error" with CodeInternalError. -/
def handleToolCall (params : ToolCallParams) (knownTool : String → Bool)
    (callTool : String → String → Except String String) : HandleEffect :=
  match params with
  | ToolCallParams.missing =>
      ⟨Reply.errorReply ⟨codeInvalidParams, "missing parameters"⟩, []⟩
  | ToolCallParams.malformed =>
      ⟨Reply.errorReply ⟨codeInvalidParams, "invalid parameters"⟩, []⟩
  | ToolCallParams.parsed toolName args =>
      if knownTool toolName then
        match callTool toolName args with
        | Except.error e =>
            ⟨Reply.errorReply ⟨codeInternalError, "internal error"⟩,
             ["Error in tool " ++ toolName ++ ": " ++ e]⟩
        | Except.ok text => ⟨Reply.result text, []⟩
      else
        ⟨Reply.errorReply ⟨codeMethodNotFound, "tool not found: " ++ toolName⟩,
         []⟩

/-- Handler.handleResourceRead: same shape as handleToolCall; a failing
resource read is logged in full to stderr while the client receives only the
fixed "internal error" message. -/
def handleResourceRead (params : ResourceReadParams)
    (knownResource : String → Bool)
    (readResource : String → Except String String) : HandleEffect :=
  match params with
  | ResourceReadParams.missing =>
      ⟨Reply.errorReply ⟨codeInvalidParams, "missing parameters"⟩, []⟩
  | ResourceReadParams.malformed =>
      ⟨Reply.errorReply ⟨codeInvalidParams, "invalid parameters"⟩, []⟩
  | ResourceReadParams.parsed uri =>
      if knownResource uri then
        match readResource uri with
        | Except.error e =>
            ⟨Reply.errorReply ⟨codeInternalError, "internal error"⟩,
             ["Error reading resource " ++ uri ++ ": " ++ e]⟩
        | Except.ok text => ⟨Reply.result text, []⟩
      else
        ⟨Reply.errorReply
           ⟨codeMethodNotFound, "resource not found: " ++ uri⟩, []⟩

/- ### Account Manager (auth/account_manager.go is absent from src/) -/

/-- An account registered with the Account Manager. -/
structure Account where
  email : String
  name : String
deriving DecidableEq, Repr

/-- Errors of the account registry. -/
inductive AuthError where
  | noAccountError
  | accountNotFound (email : String)
deriving DecidableEq, Repr

/-- Modelled from the spec: auth/account_manager.go is not included in src/.
GetAccount with an empty key resolves the deterministic default account, the
first-registered one, failing with NoAccountError on an empty registry; a
non-empty key is looked up by normalized (lower-cased) address. The registry
is the list of accounts in registration order. -/
def GetAccount (registry : List Account) (email : String) :
    Except AuthError Account :=
  if email = "" then
    match registry with
    | [] => Except.error AuthError.noAccountError
    | a :: _ => Except.ok a
  else
    match registry.find? (fun a => a.email == email.toLower) with
    | some a => Except.ok a
    | none => Except.error (AuthError.accountNotFound email)

/- ### Default scopes (auth/oauth.go is absent from src/) -/

/-- Modelled from the spec: auth/oauth.go is not included in src/.
DefaultScopes takes no input and returns the fixed nine-element scope list,
matching the expected list asserted by TestDefaultScopes. -/
def DefaultScopes : List String :=
  [ "https://www.googleapis.com/auth/calendar"
  , "https://www.googleapis.com/auth/drive"
  , "https://www.googleapis.com/auth/gmail.modify"
  , "https://www.googleapis.com/auth/spreadsheets"
  , "https://www.googleapis.com/auth/documents"
  , "https://www.googleapis.com/auth/presentations"
  , "https://www.googleapis.com/auth/tasks"
  , "https://www.googleapis.com/auth/userinfo.email"
  , "https://www.googleapis.com/auth/userinfo.profile" ]

/- ### Theorems -/

/-- C9: resolveTaskListID is the identity on any ID other than "default" and
""; on "default" or "" it returns the Id of the first task list; and with
zero task lists it returns an error, never a task-list ID. -/
theorem resolveTaskListID_spec (fetch : Except String (List TaskList))
    (tid : String) (t : TaskList) (rest : List TaskList) :
    (tid ≠ "default" → tid ≠ "" → resolveTaskListID fetch tid = Except.ok tid)
    ∧ resolveTaskListID (Except.ok (t :: rest)) "default" = Except.ok t.id
    ∧ resolveTaskListID (Except.ok (t :: rest)) "" = Except.ok t.id
    ∧ resolveTaskListID (Except.ok []) "default"
        = Except.error "no task lists found"
    ∧ resolveTaskListID (Except.ok []) ""
        = Except.error "no task lists found" := by
  refine ⟨fun h1 h2 => ?_, ?_, ?_, ?_, ?_⟩
  · simp [resolveTaskListID, h1, h2]
  · simp [resolveTaskListID, GetDefaultTaskList, ListTaskLists]
  · simp [resolveTaskListID, GetDefaultTaskList, ListTaskLists]
  · simp [resolveTaskListID, GetDefaultTaskList, ListTaskLists]
  · simp [resolveTaskListID, GetDefaultTaskList, ListTaskLists]

/-- Witness for C9 at concrete inputs. -/
theorem resolveTaskListID_spec_witness :
    resolveTaskListID (Except.ok [⟨"list1", "Home", "2025"⟩]) "abc"
      = Except.ok "abc"
    ∧ resolveTaskListID (Except.ok [⟨"list1", "Home", "2025"⟩]) "default"
      = Except.ok "list1"
    ∧ resolveTaskListID (Except.ok ([] : List TaskList)) ""
      = Except.error "no task lists found" := by
  have h := resolveTaskListID_spec (Except.ok [⟨"list1", "Home", "2025"⟩])
    "abc" ⟨"list1", "Home", "2025"⟩ []
  exact ⟨h.1 (by decide) (by decide), h.2.1, h.2.2.2.2⟩

/-- C10: UpdateTask submits exactly the fetched task with the non-nil options
applied; every field whose option is nil is submitted with the value just
fetched, and every field with a non-nil option is overwritten with the
supplied value. -/
theorem updateTask_frame (t : GTask) (opts : UpdateTaskOptions)
    (update : GTask → Except String GTask) :
    UpdateTask (Except.ok t) update opts = update (applyUpdateOptions t opts)
    ∧ (opts.title = none → (applyUpdateOptions t opts).title = t.title)
    ∧ (opts.notes = none → (applyUpdateOptions t opts).notes = t.notes)
    ∧ (opts.due = none → (applyUpdateOptions t opts).due = t.due)
    ∧ (opts.status = none → (applyUpdateOptions t opts).status = t.status)
    ∧ (∀ v, opts.title = some v → (applyUpdateOptions t opts).title = v)
    ∧ (∀ v, opts.notes = some v → (applyUpdateOptions t opts).notes = v)
    ∧ (∀ v, opts.due = some v → (applyUpdateOptions t opts).due = v)
    ∧ (∀ v, opts.status = some v → (applyUpdateOptions t opts).status = v) := by
  obtain ⟨a, b, c, d⟩ := opts
  cases a <;> cases b <;> cases c <;> cases d <;>
    simp [UpdateTask, applyUpdateOptions]

/-- Witness for C10 at a concrete task and option set. -/
theorem updateTask_frame_witness :
    (applyUpdateOptions ⟨"a", "b", "c", "needsAction"⟩
        ⟨none, none, some "2025-01-01", none⟩).title = "a"
    ∧ (applyUpdateOptions ⟨"a", "b", "c", "needsAction"⟩
        ⟨none, none, some "2025-01-01", none⟩).due = "2025-01-01" := by
  have h := updateTask_frame ⟨"a", "b", "c", "needsAction"⟩
    ⟨none, none, some "2025-01-01", none⟩ (fun t => Except.ok t)
  exact ⟨h.2.1 rfl, h.2.2.2.2.2.2.2.1 "2025-01-01" rfl⟩

/-- C3: whenever a tool call or resource read handler returns an error, the
JSON-RPC reply to the remote client is the fixed opaque message "internal
error" with CodeInternalError — a constant, independent of the internal
error text — while the full error is written to the local stderr log. -/
theorem handler_error_reply_opaque (toolName args uri e1 e2 : String)
    (knownTool knownResource : String → Bool)
    (callTool : String → String → Except String String)
    (readResource : String → Except String String)
    (hT : knownTool toolName = true) (hR : knownResource uri = true)
    (hc : callTool toolName args = Except.error e1)
    (hr : readResource uri = Except.error e2) :
    (handleToolCall (ToolCallParams.parsed toolName args) knownTool
        callTool).reply
      = Reply.errorReply ⟨codeInternalError, "internal error"⟩
    ∧ (handleToolCall (ToolCallParams.parsed toolName args) knownTool
        callTool).stderrLines
      = ["Error in tool " ++ toolName ++ ": " ++ e1]
    ∧ (handleResourceRead (ResourceReadParams.parsed uri) knownResource
        readResource).reply
      = Reply.errorReply ⟨codeInternalError, "internal error"⟩
    ∧ (handleResourceRead (ResourceReadParams.parsed uri) knownResource
        readResource).stderrLines
      = ["Error reading resource " ++ uri ++ ": " ++ e2] := by
  refine ⟨?_, ?_, ?_, ?_⟩ <;>
    simp [handleToolCall, handleResourceRead, hT, hR, hc, hr]

/-- Witness for C3 at a concrete failing tool call and resource read. -/
theorem handler_error_reply_opaque_witness :
    (handleToolCall (ToolCallParams.parsed "tasks_get_task" "{}")
        (fun _ => true)
        (fun _ _ => Except.error "token abc123 leaked path /home/u")).reply
      = Reply.errorReply ⟨codeInternalError, "internal error"⟩
    ∧ (handleResourceRead (ResourceReadParams.parsed "res://x")
        (fun _ => true)
        (fun _ => Except.error "secret detail")).reply
      = Reply.errorReply ⟨codeInternalError, "internal error"⟩ := by
  have h := handler_error_reply_opaque "tasks_get_task" "{}" "res://x"
    "token abc123 leaked path /home/u" "secret detail"
    (fun _ => true) (fun _ => true)
    (fun _ _ => Except.error "token abc123 leaked path /home/u")
    (fun _ => Except.error "secret detail") rfl rfl rfl rfl
  exact ⟨h.1, h.2.2.1⟩

/-- C7: GetAccount with the empty key fails with NoAccountError on an empty
registry, returns the sole account when exactly one is registered, and with
two or more accounts deterministically returns the first-registered one. -/
theorem getAccount_default_resolution (a b : Account)
    (rest : List Account) :
    GetAccount [] "" = Except.error AuthError.noAccountError
    ∧ GetAccount [a] "" = Except.ok a
    ∧ GetAccount (a :: b :: rest) "" = Except.ok a := by
  refine ⟨rfl, rfl, rfl⟩

/-- C8: DefaultScopes is exactly the fixed nine-element scope list, with no
duplicates, independent of any per-call input (it takes none). -/
theorem defaultScopes_fixed :
    DefaultScopes
      = [ "https://www.googleapis.com/auth/calendar"
        , "https://www.googleapis.com/auth/drive"
        , "https://www.googleapis.com/auth/gmail.modify"
        , "https://www.googleapis.com/auth/spreadsheets"
        , "https://www.googleapis.com/auth/documents"
        , "https://www.googleapis.com/auth/presentations"
        , "https://www.googleapis.com/auth/tasks"
        , "https://www.googleapis.com/auth/userinfo.email"
        , "https://www.googleapis.com/auth/userinfo.profile" ]
    ∧ DefaultScopes.length = 9
    ∧ DefaultScopes.Nodup := by
  refine ⟨rfl, rfl, by decide⟩

/- ### Credential and token store (auth/oauth.go is absent from src/) -/

/-- Credential record persisted by the token store. -/
structure Credential where
  accountEmail : String
  accessToken : String
  refreshToken : String
  expiresAt : Int
  scopes : List String
deriving DecidableEq, Repr

/-- Token store errors. -/
inductive StoreError where
  | notFoundError
  | insecurePermissionsError
  | corruptError
deriving DecidableEq, Repr

/-- Modelled from the spec: auth/oauth.go loadToken is not included in src/.
Load stats the file (its permission bits and contents are passed explicitly;
none when absent), fails with NotFoundError when the file is absent, fails
with InsecurePermissionsError when any group or other access bit (the low
six of the nine Unix mode bits) is set, and only otherwise deserializes the
contents through `decode`. -/
def Load (file : Option (Nat × String))
    (decode : String → Except StoreError Credential) :
    Except StoreError Credential :=
  match file with
  | none => Except.error StoreError.notFoundError
  | some (perm, contents) =>
    if perm % 64 ≠ 0 then Except.error StoreError.insecurePermissionsError
    else decode contents

/- ### Token revocation (auth/oauth.go is absent from src/) -/

/-- An HTTP request to the provider's token-revocation endpoint; the token
travels in the POST body and `queryParams` records every URL query
parameter of the request. -/
structure RevokeRequest where
  httpMethod : String
  endpoint : String
  bodyToken : String
  queryParams : List (String × String)
deriving DecidableEq, Repr

/-- The provider's token revocation endpoint. -/
def revokeEndpoint : String := "https://oauth2.googleapis.com/revoke"

/-- Modelled from the spec: auth/oauth.go Revoke is not included in src/.
The requests Revoke issues: the access token and, when present, the refresh
token are posted to the revoke endpoint as two separate requests, each
carrying its token in the request body and never in a URL query
parameter. -/
def revokeRequests (cred : Credential) : List RevokeRequest :=
  { httpMethod := "POST", endpoint := revokeEndpoint,
    bodyToken := cred.accessToken, queryParams := [] }
  :: (if cred.refreshToken = "" then []
      else [{ httpMethod := "POST", endpoint := revokeEndpoint,
              bodyToken := cred.refreshToken, queryParams := [] }])

/-- Modelled from the spec: Revoke issues every request in revokeRequests
regardless of earlier failures (the provider's response to each request is
passed explicitly) and succeeds only when every attempt succeeded. The
request list is returned alongside the combined result. -/
def Revoke (cred : Credential) (provider : RevokeRequest → Bool) :
    Bool × List RevokeRequest :=
  let reqs := revokeRequests cred
  ((reqs.map provider).all id, reqs)

/- ### State generator (auth/oauth.go is absent from src/) -/

/-- Lowercase hex digit character for a value below 16 (0-9 then a-f). -/
def hexDigitChar (n : Nat) : Char :=
  if n < 10 then Char.ofNat (48 + n) else Char.ofNat (87 + n)

/-- The two hex characters encoding one byte, high nibble first. -/
def byteToHexChars (b : Fin 256) : List Char :=
  [hexDigitChar (b.val / 16), hexDigitChar (b.val % 16)]

/-- The character list of encoding/hex EncodeToString over a byte list. -/
def hexEncodeBytes (bs : List (Fin 256)) : List Char :=
  (bs.map byteToHexChars).flatten

/-- Value of one hex character, both cases accepted, as encoding/hex
DecodeString accepts them. -/
def hexCharVal (c : Char) : Option (Fin 16) :=
  if h1 : 48 ≤ c.toNat ∧ c.toNat ≤ 57 then some ⟨c.toNat - 48, by omega⟩
  else if h2 : 97 ≤ c.toNat ∧ c.toNat ≤ 102 then some ⟨c.toNat - 87, by omega⟩
  else if h3 : 65 ≤ c.toNat ∧ c.toNat ≤ 70 then some ⟨c.toNat - 55, by omega⟩
  else none

/-- encoding/hex DecodeString on a character list: succeeds exactly on
even-length sequences of hex digits. -/
def hexDecodeChars : List Char → Option (List (Fin 256))
  | [] => some []
  | [_] => none
  | c1 :: c2 :: rest =>
    match hexCharVal c1, hexCharVal c2, hexDecodeChars rest with
    | some hi, some lo, some bs =>
      some (⟨16 * hi.val + lo.val,
             by have := hi.isLt; have := lo.isLt; omega⟩ :: bs)
    | _, _, _ => none

/-- Modelled from the spec: auth/oauth.go generateOAuthState is not included
in src/. It reads 32 bytes from the platform's secure random source (passed
explicitly; an error when the source fails) and returns their lowercase hex
encoding, failing with EntropyError only when the source fails. -/
def generateOAuthState (randRead : Except Unit (List (Fin 256))) :
    Except Unit String :=
  match randRead with
  | Except.error _ => Except.error ()
  | Except.ok bs => Except.ok (String.mk (hexEncodeBytes bs))

/- ### Authorization engine (auth/oauth.go is absent from src/) -/

/-- Events observable at the boundary of Authenticate, in order. -/
inductive AuthEvent where
  | listenerStarted
  | tokenExchange (code : String)
  | identityFetch
  | listenerShutdown
deriving DecidableEq, Repr

/-- How the bounded redirect wait ends: the single-shot handler fires with a
state and an authorization code, the timeout elapses, or the caller
cancels. -/
inductive RedirectOutcome where
  | redirect (state : String) (code : String)
  | timeout
  | cancelled
deriving DecidableEq, Repr

/-- Result of Authenticate. -/
inductive AuthResult where
  | success (cred : Credential)
  | csrfMismatchError
  | timeoutError
  | cancelledError
  | exchangeError
deriving DecidableEq, Repr

/-- True exactly on token-exchange events. -/
def isTokenExchange : AuthEvent → Bool
  | AuthEvent.tokenExchange _ => true
  | _ => false

/-- Modelled from the spec: auth/oauth.go authenticate is not included in
src/. Authenticate starts the loopback listener, waits for the redirect, the
timeout or cancellation, validates the returned state against the generated
one before any code exchange, on a match exchanges the code at the
provider's token endpoint (passed explicitly as `exchange`) and fetches the
account identity, and unconditionally shuts the listener down before
returning on every branch. The returned trace lists the boundary events in
order. -/
def Authenticate (genState : String) (outcome : RedirectOutcome)
    (exchange : String → Except String Credential) :
    AuthResult × List AuthEvent :=
  match outcome with
  | RedirectOutcome.redirect st code =>
    if st ≠ genState then
      (AuthResult.csrfMismatchError,
       [AuthEvent.listenerStarted, AuthEvent.listenerShutdown])
    else
      match exchange code with
      | Except.error _ =>
        (AuthResult.exchangeError,
         [AuthEvent.listenerStarted, AuthEvent.tokenExchange code,
          AuthEvent.listenerShutdown])
      | Except.ok cred =>
        (AuthResult.success cred,
         [AuthEvent.listenerStarted, AuthEvent.tokenExchange code,
          AuthEvent.identityFetch, AuthEvent.listenerShutdown])
  | RedirectOutcome.timeout =>
    (AuthResult.timeoutError,
     [AuthEvent.listenerStarted, AuthEvent.listenerShutdown])
  | RedirectOutcome.cancelled =>
    (AuthResult.cancelledError,
     [AuthEvent.listenerStarted, AuthEvent.listenerShutdown])

/- ### Theorems about the spec-modelled components -/

/-- C4: loading a token file with any group or other permission bit set
fails with InsecurePermissionsError, and the result is independent of the
file's contents and of the deserializer — the contents are never
deserialized and no credential data is returned. -/
theorem load_insecure_permissions (perm : Nat) (c1 c2 : String)
    (decode1 decode2 : String → Except StoreError Credential)
    (h : perm % 64 ≠ 0) :
    Load (some (perm, c1)) decode1
      = Except.error StoreError.insecurePermissionsError
    ∧ Load (some (perm, c1)) decode1 = Load (some (perm, c2)) decode2 := by
  constructor <;> simp [Load, h]

/-- Witness for C4 at mode 0644 (permission bits 420). -/
theorem load_insecure_permissions_witness :
    Load (some (420, "tokendata"))
        (fun _ => Except.error StoreError.corruptError)
      = Except.error StoreError.insecurePermissionsError :=
  (load_insecure_permissions 420 "tokendata" "otherdata"
    (fun _ => Except.error StoreError.corruptError)
    (fun _ => Except.error StoreError.corruptError) (by decide)).1

/-- C5: on a credential with both tokens, Revoke issues exactly two separate
requests, one per token, each with the token in the request body and an
empty URL query; the request list is independent of the provider's answers,
so a failure on one token never prevents the attempt on the other; and the
combined result succeeds exactly when both attempts succeeded. -/
theorem revoke_both_tokens (cred : Credential)
    (provider : RevokeRequest → Bool) (h : cred.refreshToken ≠ "") :
    (Revoke cred provider).2
      = [ { httpMethod := "POST", endpoint := revokeEndpoint,
            bodyToken := cred.accessToken, queryParams := [] }
        , { httpMethod := "POST", endpoint := revokeEndpoint,
            bodyToken := cred.refreshToken, queryParams := [] } ]
    ∧ (∀ r ∈ (Revoke cred provider).2, r.queryParams = [])
    ∧ ((Revoke cred provider).1 = true ↔
        provider { httpMethod := "POST", endpoint := revokeEndpoint,
                   bodyToken := cred.accessToken, queryParams := [] } = true
        ∧ provider { httpMethod := "POST", endpoint := revokeEndpoint,
                     bodyToken := cred.refreshToken,
                     queryParams := [] } = true) := by
  refine ⟨?_, ?_, ?_⟩ <;> simp [Revoke, revokeRequests, h]

/-- Witness for C5: a provider that fails the access-token revocation still
receives the refresh-token attempt, and the combined result reports the
failure. -/
theorem revoke_both_tokens_witness :
    (Revoke ⟨"user", "at", "rt", 0, []⟩
        (fun r => r.bodyToken == "rt")).2
      = [⟨"POST", revokeEndpoint, "at", []⟩,
         ⟨"POST", revokeEndpoint, "rt", []⟩]
    ∧ (Revoke ⟨"user", "at", "rt", 0, []⟩
        (fun r => r.bodyToken == "rt")).1 = false := by
  have h := revoke_both_tokens ⟨"user", "at", "rt", 0, []⟩
    (fun r => r.bodyToken == "rt") (by decide)
  exact ⟨h.1, by decide⟩

/-- Decoding inverts encoding: every hex digit character maps back to its
value. -/
theorem hexCharVal_hexDigitChar (n : Fin 16) :
    hexCharVal (hexDigitChar n.val) = some n := by
  revert n
  decide

/-- Decoding inverts encoding on whole byte lists. -/
theorem hexDecode_encode (bs : List (Fin 256)) :
    hexDecodeChars (hexEncodeBytes bs) = some bs := by
  induction bs with
  | nil => rfl
  | cons b rest ih =>
    have hd : b.val / 16 < 16 := by have := b.isLt; omega
    have hm : b.val % 16 < 16 := Nat.mod_lt _ (by norm_num)
    have hjoin : hexEncodeBytes (b :: rest)
        = hexDigitChar (b.val / 16) :: hexDigitChar (b.val % 16)
          :: hexEncodeBytes rest := by
      simp [hexEncodeBytes, byteToHexChars]
    have e1 := hexCharVal_hexDigitChar ⟨b.val / 16, hd⟩
    have e2 := hexCharVal_hexDigitChar ⟨b.val % 16, hm⟩
    simp only [Fin.val_mk] at e1 e2
    rw [hjoin]
    simp only [hexDecodeChars, e1, e2, ih]
    have hb : 16 * (b.val / 16) + b.val % 16 = b.val := Nat.div_add_mod b.val 16
    simp [Fin.ext_iff, hb]

/-- Hex encoding is injective on byte lists. -/
theorem hexEncodeBytes_inj (bs1 bs2 : List (Fin 256))
    (h : hexEncodeBytes bs1 = hexEncodeBytes bs2) : bs1 = bs2 := by
  have h1 := hexDecode_encode bs1
  have h2 := hexDecode_encode bs2
  rw [h, h2] at h1
  exact (Option.some.inj h1).symm

/-- Hex encoding doubles the length. -/
theorem hexEncodeBytes_length (bs : List (Fin 256)) :
    (hexEncodeBytes bs).length = 2 * bs.length := by
  induction bs with
  | nil => rfl
  | cons b rest ih =>
    simp [hexEncodeBytes, byteToHexChars] at ih ⊢
    omega

/-- C6: a successful generateOAuthState call over 32 random bytes returns a
64-character string that decodes as valid hex back to those bytes, and two
calls whose random bytes differ return unequal State values. -/
theorem generateOAuthState_spec (bs1 bs2 : List (Fin 256))
    (h1 : bs1.length = 32) (h2 : bs2.length = 32) (hne : bs1 ≠ bs2) :
    ∃ s1 s2 : String,
      generateOAuthState (Except.ok bs1) = Except.ok s1
      ∧ generateOAuthState (Except.ok bs2) = Except.ok s2
      ∧ s1.length = 64
      ∧ hexDecodeChars s1.data = some bs1
      ∧ s1 ≠ s2 := by
  refine ⟨String.mk (hexEncodeBytes bs1), String.mk (hexEncodeBytes bs2),
    rfl, rfl, ?_, ?_, ?_⟩
  · show (hexEncodeBytes bs1).length = 64
    rw [hexEncodeBytes_length, h1]
  · exact hexDecode_encode bs1
  · intro hcontra
    exact hne (hexEncodeBytes_inj bs1 bs2 (congrArg String.data hcontra))

/-- Witness for C6 at two concrete 32-byte entropy reads. -/
theorem generateOAuthState_spec_witness :
    ∃ s1 s2 : String,
      generateOAuthState (Except.ok (List.replicate 32 (0 : Fin 256)))
        = Except.ok s1
      ∧ generateOAuthState (Except.ok (List.replicate 32 (1 : Fin 256)))
        = Except.ok s2
      ∧ s1.length = 64
      ∧ hexDecodeChars s1.data
          = some (List.replicate 32 (0 : Fin 256))
      ∧ s1 ≠ s2 :=
  generateOAuthState_spec (List.replicate 32 0) (List.replicate 32 1)
    (by simp) (by simp) (by decide)

/-- C1: when the redirect handler fires with a state different from the
session's generated one, Authenticate returns CSRFMismatchError and the
event trace contains zero token-exchange calls, whatever the token endpoint
would have answered. -/
theorem csrf_mismatch_no_exchange (genState st code : String)
    (exchange : String → Except String Credential) (h : st ≠ genState) :
    (Authenticate genState (RedirectOutcome.redirect st code) exchange).1
      = AuthResult.csrfMismatchError
    ∧ ((Authenticate genState (RedirectOutcome.redirect st code)
        exchange).2.countP (fun e => isTokenExchange e)) = 0 := by
  constructor <;> simp [Authenticate, h, isTokenExchange]

/-- Witness for C1 at a concrete forged state. -/
theorem csrf_mismatch_no_exchange_witness :
    (Authenticate "genuine" (RedirectOutcome.redirect "forged" "code1")
        (fun _ => Except.error "unreached")).1
      = AuthResult.csrfMismatchError
    ∧ ((Authenticate "genuine" (RedirectOutcome.redirect "forged" "code1")
        (fun _ => Except.error "unreached")).2.countP
          (fun e => isTokenExchange e)) = 0 :=
  csrf_mismatch_no_exchange "genuine" "forged" "code1"
    (fun _ => Except.error "unreached") (by decide)

/-- C2: on every exit branch of Authenticate — success, CSRF mismatch,
exchange failure, timeout, or cancellation — the last boundary event is the
listener shutdown, so the local listener never outlives the call. -/
theorem listener_shutdown_every_branch (genState : String)
    (outcome : RedirectOutcome)
    (exchange : String → Except String Credential) :
    (Authenticate genState outcome exchange).2.getLast?
      = some AuthEvent.listenerShutdown := by
  cases outcome with
  | redirect st code =>
    by_cases h : st ≠ genState
    · simp [Authenticate, h]
    · cases hx : exchange code <;> simp [Authenticate, h, hx]
  | timeout => rfl
  | cancelled => rfl
